import Mathlib

/-!
Verification development for the Echo Friendly Acoustics dashboard
(`src/streamlist_app.py`).

The program loads a CSV table of acoustic-treatment project records,
filters it by a date range, a set of client sectors and a set of statuses,
computes five summary metrics, and builds six horizontal bar charts.
We give a shallow embedding of that pipeline: a project record is a
structure, the loaded table is a list of records, the pandas operations
(`filter`/boolean indexing, `sum`, `mean`, `groupby(...).sum()`,
`sort_values(ascending=True)`, `unique()`) are modelled as executable
Lean functions on lists.  `sort_values` is modelled as one concrete
deterministic ascending sort (insertion sort; the pandas default
`kind=quicksort` leaves the relative order of equal keys unspecified,
and no theorem below depends on it); `groupby` with its default
`sort=True` yields one group per distinct key present, keys in
ascending order.
Numeric columns are modelled by `Int` (the claims under verification
concern ordering, aggregation and emptiness, never fractional values,
and integer columns let the kernel evaluate the model on concrete
fixtures); the mean, NaN over an empty view, is `Option Rat`; calendar
dates are `Int` day numbers.
-/

/-- One row of the loaded table (`cleaned_project_data.csv` after
`load_data`): the columns the dashboard reads. -/
structure Record where
  date : Int
  clientSector : String
  status : String
  leadSource : String
  projectName : String
  petBottles : Int
  salePrice : Int
  profit : Int
  nrcRating : Int
  squareFootage : Int
deriving DecidableEq

/-- The state of the three sidebar controls: the date-range slider and
the two multiselects (lines 62-82 of the source). -/
structure Selection where
  startDate : Int
  endDate : Int
  sectors : List String
  statuses : List String
deriving DecidableEq

/-- The conjunction of the three filter predicates applied at lines
85-90: date within the inclusive range, sector selected, status
selected. -/
def rowMatches (s : Selection) (r : Record) : Bool :=
  decide (s.startDate ≤ r.date) && decide (r.date ≤ s.endDate)
    && s.sectors.contains r.clientSector && s.statuses.contains r.status

/-- Model of `df_filtered` (lines 85-90): the Filtered View, the rows of the
loaded table satisfying all three predicates. -/
def df_filtered (df : List Record) (s : Selection) : List Record :=
  df.filter (rowMatches s)

/-- Model of `total_projects = len(df_filtered)` (line 93). -/
def total_projects (v : List Record) : Nat :=
  v.length

/-- Model of `total_bottles` (line 94): sum of the PET Bottles Diverted
column. -/
def total_bottles (v : List Record) : Int :=
  (v.map (·.petBottles)).sum

/-- Model of `total_revenue` (line 95): sum of the Sale Price (INR)
column. -/
def total_revenue (v : List Record) : Int :=
  (v.map (·.salePrice)).sum

/-- Model of `total_profit` (line 96): sum of the Profit (INR)
column. -/
def total_profit (v : List Record) : Int :=
  (v.map (·.profit)).sum

/-- Model of `avg_nrc` (line 97), the mean of the NRC Rating column.
The pandas
mean of an empty column is NaN; we model it as `none`. -/
def avg_nrc (v : List Record) : Option Rat :=
  if v.isEmpty then none
  else some (((v.map (·.nrcRating)).sum : Rat) / (v.length : Rat))

/-- The metric-card rendering of `avg_nrc` (line 115,
`f"{avg_nrc:.2f}"`).  Python formats NaN as the string `"nan"` without
raising; the numeric case is abstracted to `toString`. -/
def render_avg_nrc (m : Option Rat) : String :=
  match m with
  | none => "nan"
  | some q => toString q

/-- Ascending sort by a numeric key, the model of
`sort_values(<column>, ascending=True)`.  The source always uses the
pandas default `kind=quicksort`, which is documented as not stable, so
the order of elements with equal keys is a library internal; this model
commits to one concrete deterministic ascending sort (insertion sort)
and no claim proved below depends on the order it gives equal keys. -/
def sort_values {α : Type} (key : α → Int) (l : List α) : List α :=
  l.insertionSort (fun a b => key a ≤ key b)

/-- Lexicographic comparison of character lists by code point. -/
def charListLe : List Char → List Char → Bool
  | [], _ => true
  | _ :: _, [] => false
  | a :: as, b :: bs =>
    if a.toNat < b.toNat then true
    else if b.toNat < a.toNat then false
    else charListLe as bs

/-- The string ordering `groupby(sort=True)` sorts its keys by:
lexicographic by code point. -/
def strLe (a b : String) : Bool :=
  charListLe a.data b.data

/-- Helper for `uniqueList`: `seen` holds the values already emitted. -/
def uniqueAux (seen : List String) : List String → List String
  | [] => []
  | a :: l =>
    if seen.contains a then uniqueAux seen l
    else a :: uniqueAux (a :: seen) l

/-- Pandas `Series.unique()`: distinct values in order of first
occurrence. -/
def uniqueList (l : List String) : List String :=
  uniqueAux [] l

/-- Model of `df.groupby(k)[c].sum()` with the default `sort=True`: one entry per
distinct key present in the view, keys in ascending order, each paired
with the sum of column `c` over the rows carrying that key. -/
def groupby_sum (key : Record → String) (col : Record → Int)
    (v : List Record) : List (String × Int) :=
  ((uniqueList (v.map key)).insertionSort (fun a b => strLe a b = true)).map
    (fun k => (k, ((v.filter (fun r => key r == k)).map col).sum))

/-- Model of `chart1_data` (lines 121-123): project name, sale price and profit
per row, sorted ascending by sale price. -/
def chart1_data (v : List Record) : List (String × Int × Int) :=
  sort_values (fun x => x.2.1)
    (v.map (fun r => (r.projectName, r.salePrice, r.profit)))

/-- Model of `chart2_data` (lines 153-157): sale price summed by client sector,
sorted ascending by the summed value. -/
def chart2_data (v : List Record) : List (String × Int) :=
  sort_values (fun x => x.2) (groupby_sum (·.clientSector) (·.salePrice) v)

/-- Model of `chart3_data` (lines 177-181): PET bottles summed by client sector,
sorted ascending by the summed value. -/
def chart3_data (v : List Record) : List (String × Int) :=
  sort_values (fun x => x.2) (groupby_sum (·.clientSector) (·.petBottles) v)

/-- Model of `chart4_data` (lines 201-203): project name and NRC rating per row,
sorted ascending by NRC rating. -/
def chart4_data (v : List Record) : List (String × Int) :=
  sort_values (fun x => x.2) (v.map (fun r => (r.projectName, r.nrcRating)))

/-- Model of `chart5_data` (lines 223-227): sale price summed by lead source,
sorted ascending by the summed value. -/
def chart5_data (v : List Record) : List (String × Int) :=
  sort_values (fun x => x.2) (groupby_sum (·.leadSource) (·.salePrice) v)

/-- Model of `chart6_data` (lines 247-249): project name and square footage per
row, sorted ascending by square footage. -/
def chart6_data (v : List Record) : List (String × Int) :=
  sort_values (fun x => x.2) (v.map (fun r => (r.projectName, r.squareFootage)))

/-- Model of `df["Date"].min()` over the loaded table (line 64). -/
def dateMin (df : List Record) : Option Int :=
  (df.map (·.date)).min?

/-- Model of `df["Date"].max()` over the loaded table (line 65). -/
def dateMax (df : List Record) : Option Int :=
  (df.map (·.date)).max?

/-- Model of `df["Client Sector"].unique()` (line 73). -/
def allSectors (df : List Record) : List String :=
  uniqueList (df.map (·.clientSector))

/-- Model of `df["Status"].unique()` (line 80). -/
def allStatuses (df : List Record) : List String :=
  uniqueList (df.map (·.status))

/-- Everything one rerun of the script computes from the loaded table
and the control selections: the five metrics and the six chart series
(the detail table is the Filtered View itself). -/
structure RenderPayload where
  projects : Nat
  bottles : Int
  revenue : Int
  profit : Int
  nrc : Option Rat
  c1 : List (String × Int × Int)
  c2 : List (String × Int)
  c3 : List (String × Int)
  c4 : List (String × Int)
  c5 : List (String × Int)
  c6 : List (String × Int)
  tableRows : List Record
deriving DecidableEq

/-- The full filter → aggregate → chart pipeline of one rerun
(lines 85-270). -/
def pipeline (df : List Record) (s : Selection) : RenderPayload :=
  let v := df_filtered df s
  { projects := total_projects v
    bottles := total_bottles v
    revenue := total_revenue v
    profit := total_profit v
    nrc := avg_nrc v
    c1 := chart1_data v
    c2 := chart2_data v
    c3 := chart3_data v
    c4 := chart4_data v
    c5 := chart5_data v
    c6 := chart6_data v
    tableRows := v }

/-- The raw CSV file as read by `pd.read_csv`: a header row of column
names and data rows. -/
structure RawTable where
  header : List String
  rows : List (List String)
deriving DecidableEq

/-- The ten columns the dashboard reads (spec section 6). -/
def required_columns : List String :=
  ["Date", "Client Sector", "Status", "Lead Source", "Project Name",
   "PET Bottles Diverted", "Sale Price (INR)", "Profit (INR)",
   "NRC Rating", "Square Footage Installed"]

/-- Model of `load_data` (lines 45-49).  `pd.read_csv` raises
`FileNotFoundError` when the file is absent (`none`); `df["Date"]`
raises `KeyError` when the `Date` column is absent; otherwise the table
is returned unmodified apart from the date parse, which no claim
depends on and is not modelled.  No other column is touched by the
loader. -/
def load_data : Option RawTable → Except String RawTable
  | none => Except.error "FileNotFoundError"
  | some t =>
      if "Date" ∈ t.header then Except.ok t
      else Except.error "KeyError: Date"

/-! ### Fixtures

The 3-row fixture of spec section 8 (sectors A, B, A; sale prices 100,
200, 300) and selections over it, used as concrete witnesses. -/

def rA1 : Record :=
  { date := 1, clientSector := "A", status := "Done", leadSource := "L1",
    projectName := "P1", petBottles := 10, salePrice := 100, profit := 30,
    nrcRating := 1, squareFootage := 50 }

def rB2 : Record :=
  { date := 2, clientSector := "B", status := "Done", leadSource := "L2",
    projectName := "P2", petBottles := 20, salePrice := 200, profit := 60,
    nrcRating := 2, squareFootage := 60 }

def rA3 : Record :=
  { date := 3, clientSector := "A", status := "Done", leadSource := "L1",
    projectName := "P3", petBottles := 30, salePrice := 300, profit := 90,
    nrcRating := 3, squareFootage := 70 }

def fixture : List Record := [rA1, rB2, rA3]

/-- Selecting only sector A over the full date range. -/
def selA : Selection :=
  { startDate := 1, endDate := 3, sectors := ["A"], statuses := ["Done"] }

/-- Selecting everything present in `fixture`. -/
def selAll : Selection :=
  { startDate := 1, endDate := 3, sectors := ["A", "B"], statuses := ["Done"] }

/-- Selecting an empty sector set. -/
def selNoSector : Selection :=
  { startDate := 1, endDate := 3, sectors := [], statuses := ["Done"] }

/-! ### Helper lemmas -/

/-- The boolean filter predicate unpacked into the three spec-level
predicates. -/
theorem rowMatches_iff (s : Selection) (r : Record) :
    rowMatches s r = true ↔
      (s.startDate ≤ r.date ∧ r.date ≤ s.endDate) ∧
        r.clientSector ∈ s.sectors ∧ r.status ∈ s.statuses := by
  simp [rowMatches, and_assoc]

theorem mem_uniqueAux {x : String} :
    ∀ (l seen : List String), x ∈ uniqueAux seen l ↔ x ∈ l ∧ x ∉ seen := by
  intro l
  induction l with
  | nil => intro seen; simp [uniqueAux]
  | cons a l ih =>
    intro seen
    rw [uniqueAux]
    by_cases h : a ∈ seen
    · rw [if_pos (by simpa using h), ih]
      constructor
      · rintro ⟨h1, h2⟩
        exact ⟨List.mem_cons_of_mem a h1, h2⟩
      · rintro ⟨h1, h2⟩
        rcases List.mem_cons.mp h1 with rfl | h1
        · exact absurd h h2
        · exact ⟨h1, h2⟩
    · rw [if_neg (by simpa using h)]
      simp only [List.mem_cons, ih]
      constructor
      · rintro (rfl | ⟨h1, h2⟩)
        · exact ⟨Or.inl rfl, h⟩
        · exact ⟨Or.inr h1, fun hx => h2 (Or.inr hx)⟩
      · rintro ⟨rfl | h1, h2⟩
        · exact Or.inl rfl
        · by_cases hxa : x = a
          · exact Or.inl hxa
          · exact Or.inr ⟨h1, fun hx => hx.elim hxa h2⟩

theorem mem_uniqueList {x : String} (l : List String) :
    x ∈ uniqueList l ↔ x ∈ l := by
  rw [uniqueList, mem_uniqueAux]
  simp

theorem nodup_uniqueAux :
    ∀ (l seen : List String), (uniqueAux seen l).Nodup := by
  intro l
  induction l with
  | nil => intro seen; simp [uniqueAux]
  | cons a l ih =>
    intro seen
    rw [uniqueAux]
    by_cases h : seen.contains a
    · rw [if_pos h]; exact ih seen
    · rw [if_neg h]
      refine List.nodup_cons.mpr ⟨fun hmem => ?_, ih (a :: seen)⟩
      exact ((mem_uniqueAux l (a :: seen)).mp hmem).2 (List.mem_cons_self a seen)

theorem nodup_uniqueList (l : List String) : (uniqueList l).Nodup :=
  nodup_uniqueAux l []

/-- The function `sort_values` permutes its input. -/
theorem sort_values_perm {α : Type} (key : α → Int) (l : List α) :
    (sort_values key l).Perm l :=
  List.perm_insertionSort (fun a b => key a ≤ key b) l

/-- Splitting a list by a boolean predicate splits the sum of any
mapped column. -/
theorem sum_map_filter_partition (f : Record → Int) (p : Record → Bool)
    (l : List Record) :
    ((l.filter p).map f).sum + ((l.filter (fun r => !p r)).map f).sum
      = (l.map f).sum := by
  have h := (List.filter_append_perm p l).map f
  rw [List.map_append] at h
  rw [← h.sum_eq, List.sum_append]

/-- Splitting a list by a boolean predicate splits its length. -/
theorem length_filter_partition (p : Record → Bool) (l : List Record) :
    (l.filter p).length + (l.filter (fun r => !p r)).length = l.length := by
  have h := List.filter_append_perm p l
  rw [← h.length_eq, List.length_append]

/-! ### Claims -/

/-- C1: every row of the Filtered View is a row of the loaded table and
satisfies all three filter predicates — its date lies in the selected
inclusive range, its client sector is in the selected sector set, and
its status is in the selected status set. -/
theorem claim_C1 (df : List Record) (s : Selection) (r : Record)
    (h : r ∈ df_filtered df s) :
    r ∈ df ∧ (s.startDate ≤ r.date ∧ r.date ≤ s.endDate) ∧
      r.clientSector ∈ s.sectors ∧ r.status ∈ s.statuses := by
  rcases List.mem_filter.mp h with ⟨hdf, hm⟩
  exact ⟨hdf, (rowMatches_iff s r).mp hm⟩

theorem claim_C1_witness :
    rA1 ∈ df_filtered fixture selA ∧
      (rA1 ∈ fixture ∧
        (selA.startDate ≤ rA1.date ∧ rA1.date ≤ selA.endDate) ∧
        rA1.clientSector ∈ selA.sectors ∧ rA1.status ∈ selA.statuses) :=
  ⟨by decide, claim_C1 fixture selA rA1 (by decide)⟩

/-- C2: over any Filtered View, each sum-based metric equals the sum of
its column restricted to exactly the rows of the view, the count metric
equals the number of rows of the view, and the view and its complement
partition each metric of the loaded table. -/
theorem claim_C2 (df : List Record) (s : Selection) :
    (total_projects (df_filtered df s) = (df_filtered df s).length ∧
      total_bottles (df_filtered df s)
        = ((df_filtered df s).map (·.petBottles)).sum ∧
      total_revenue (df_filtered df s)
        = ((df_filtered df s).map (·.salePrice)).sum ∧
      total_profit (df_filtered df s)
        = ((df_filtered df s).map (·.profit)).sum) ∧
    (total_bottles (df_filtered df s)
        + total_bottles (df.filter (fun r => !rowMatches s r))
        = total_bottles df ∧
      total_revenue (df_filtered df s)
        + total_revenue (df.filter (fun r => !rowMatches s r))
        = total_revenue df ∧
      total_profit (df_filtered df s)
        + total_profit (df.filter (fun r => !rowMatches s r))
        = total_profit df ∧
      total_projects (df_filtered df s)
        + total_projects (df.filter (fun r => !rowMatches s r))
        = total_projects df) := by
  refine ⟨⟨rfl, rfl, rfl, rfl⟩, ?_, ?_, ?_, ?_⟩
  · exact sum_map_filter_partition (·.petBottles) (rowMatches s) df
  · exact sum_map_filter_partition (·.salePrice) (rowMatches s) df
  · exact sum_map_filter_partition (·.profit) (rowMatches s) df
  · exact length_filter_partition (rowMatches s) df

/-- C4: on an empty Filtered View the aggregator yields count 0 and
sums 0, the mean is undefined (`none`, the model of NaN) and renders as
the defined placeholder string `"nan"` rather than crashing, and all
six chart builders yield empty-but-valid data series. -/
theorem claim_C4 :
    total_projects [] = 0 ∧ total_bottles [] = 0 ∧ total_revenue [] = 0 ∧
      total_profit [] = 0 ∧ avg_nrc [] = none ∧
      render_avg_nrc (avg_nrc []) = "nan" ∧
      chart1_data [] = [] ∧ chart2_data [] = [] ∧ chart3_data [] = [] ∧
      chart4_data [] = [] ∧ chart5_data [] = [] ∧ chart6_data [] = [] := by
  decide

/-- C5: an empty selected sector set, or an empty selected status set,
yields an empty Filtered View; there is no implicit select-all
fallback. -/
theorem claim_C5 (df : List Record) (s : Selection)
    (h : s.sectors = [] ∨ s.statuses = []) :
    df_filtered df s = [] := by
  apply List.filter_eq_nil_iff.mpr
  intro r _
  rcases h with h | h <;> simp [rowMatches, h]

theorem claim_C5_witness :
    (selNoSector.sectors = [] ∨ selNoSector.statuses = []) ∧
      df_filtered fixture selNoSector = [] :=
  ⟨Or.inl rfl, claim_C5 fixture selNoSector (Or.inl rfl)⟩

/-- C6: when the selected range spans the minimum through maximum dates
of the loaded table and all distinct sectors and statuses are selected,
the Filtered View is the whole loaded table. -/
theorem claim_C6 (df : List Record) (s : Selection)
    (hmin : dateMin df = some s.startDate)
    (hmax : dateMax df = some s.endDate)
    (hsec : s.sectors = allSectors df)
    (hst : s.statuses = allStatuses df) :
    df_filtered df s = df := by
  simp only [dateMin] at hmin
  simp only [dateMax] at hmax
  apply List.filter_eq_self.mpr
  intro r hr
  rw [rowMatches_iff]
  refine ⟨⟨?_, ?_⟩, ?_, ?_⟩
  · exact (List.le_min?_iff (fun a b c => le_min_iff) hmin).mp le_rfl
      r.date (List.mem_map_of_mem _ hr)
  · exact (List.max?_le_iff (fun a b c => max_le_iff) hmax).mp le_rfl
      r.date (List.mem_map_of_mem _ hr)
  · rw [hsec]
    exact (mem_uniqueList _).mpr (List.mem_map_of_mem _ hr)
  · rw [hst]
    exact (mem_uniqueList _).mpr (List.mem_map_of_mem _ hr)

theorem claim_C6_witness :
    dateMin fixture = some selAll.startDate ∧
      dateMax fixture = some selAll.endDate ∧
      selAll.sectors = allSectors fixture ∧
      selAll.statuses = allStatuses fixture ∧
      df_filtered fixture selAll = fixture :=
  ⟨by decide, by decide, by decide, by decide,
    claim_C6 fixture selAll (by decide) (by decide) (by decide) (by decide)⟩

/-- C7: on the 3-row fixture (sectors A, B, A; sale prices 100, 200,
300), filtering to sector set containing only A gives a 2-row view with
total revenue 400, and the chart-2 aggregation over the selection of
both sectors groups to A ↦ 400, B ↦ 200 and sorts ascending by value
to the sequence (B, 200), (A, 400). -/
theorem claim_C7 :
    (df_filtered fixture selA).length = 2 ∧
      total_revenue (df_filtered fixture selA) = 400 ∧
      groupby_sum (·.clientSector) (·.salePrice) (df_filtered fixture selAll)
        = [("A", 400), ("B", 200)] ∧
      chart2_data (df_filtered fixture selAll) = [("B", 200), ("A", 400)] := by
  decide

/-- C8: the pipeline is a deterministic function of the loaded table
and the filter selection — two executions on identical inputs produce
identical metrics and chart series. -/
theorem claim_C8 (df₁ df₂ : List Record) (s₁ s₂ : Selection)
    (hdf : df₁ = df₂) (hs : s₁ = s₂) :
    pipeline df₁ s₁ = pipeline df₂ s₂ := by
  rw [hdf, hs]

theorem claim_C8_witness :
    fixture = fixture ∧ selA = selA ∧
      pipeline fixture selA = pipeline fixture selA :=
  ⟨rfl, rfl, claim_C8 fixture fixture selA selA rfl rfl⟩

/-- A raw CSV table that has a Date column but lacks the required
Client Sector column. -/
def tableNoSector : RawTable :=
  { header := ["Date", "Status", "Lead Source", "Project Name",
      "PET Bottles Diverted", "Sale Price (INR)", "Profit (INR)",
      "NRC Rating", "Square Footage Installed"],
    rows := [] }

/-- A raw CSV table whose header is just the Date column. -/
def tableWithDate : RawTable :=
  { header := ["Date"], rows := [] }

/-- C9 fails on the code: the loader succeeds on a table missing the
required Client Sector column, because `load_data` touches only the
Date column. -/
theorem claim_C9_counterexample :
    "Client Sector" ∈ required_columns ∧
      "Client Sector" ∉ tableNoSector.header ∧
      load_data (some tableNoSector) = Except.ok tableNoSector :=
  ⟨by decide, by decide, rfl⟩

/-- C9 (amended): the Data Loader fails loudly exactly when the source
file is missing or the Date column is absent, and otherwise returns
the table with no rows dropped; absence of any other required column
is not detected at load time. -/
theorem claim_C9_amended :
    (load_data none).isOk = false ∧
      (∀ t : RawTable, (load_data (some t)).isOk = t.header.contains "Date") ∧
      (∀ t : RawTable, t.header.contains "Date" = true →
        load_data (some t) = Except.ok t) := by
  refine ⟨rfl, fun t => ?_, fun t h => ?_⟩
  · by_cases h : "Date" ∈ t.header <;>
      simp [load_data, h, Except.isOk, Except.toBool]
  · have hm : "Date" ∈ t.header := by simpa using h
    simp [load_data, hm]

theorem claim_C9_amended_witness :
    tableWithDate.header.contains "Date" = true ∧
      load_data (some tableWithDate) = Except.ok tableWithDate :=
  ⟨by decide, claim_C9_amended.2.2 tableWithDate (by decide)⟩

/-- The category axis of a grouped chart is, up to the value sort, the
list of distinct keys present in the view. -/
theorem chart_keys_perm (key : Record → String) (col : Record → Int)
    (v : List Record) :
    ((sort_values (fun x => x.2) (groupby_sum key col v)).map
        Prod.fst).Perm (uniqueList (v.map key)) := by
  refine ((sort_values_perm _ _).map Prod.fst).trans ?_
  rw [groupby_sum, List.map_map]
  have h := (List.perm_insertionSort (fun a b => strLe a b = true)
    (uniqueList (v.map key))).map
    (Prod.fst ∘ fun k => (k, ((v.filter (fun r => key r == k)).map col).sum))
  have heq : (uniqueList (v.map key)).map
      (Prod.fst ∘ fun k => (k, ((v.filter (fun r => key r == k)).map col).sum))
      = uniqueList (v.map key) := by
    simp [Function.comp_def]
  rw [heq] at h
  exact h

/-- C10: each grouped chart has exactly one bar per distinct group-key
value present in the Filtered View — every key occurring in the view
appears, no key appears twice, and no key absent from the view (even
one present elsewhere in the loaded table) appears. -/
theorem claim_C10 (v : List Record) (k : String) :
    ((k ∈ (chart2_data v).map Prod.fst ↔ k ∈ v.map (·.clientSector)) ∧
      ((chart2_data v).map Prod.fst).Nodup) ∧
    ((k ∈ (chart3_data v).map Prod.fst ↔ k ∈ v.map (·.clientSector)) ∧
      ((chart3_data v).map Prod.fst).Nodup) ∧
    ((k ∈ (chart5_data v).map Prod.fst ↔ k ∈ v.map (·.leadSource)) ∧
      ((chart5_data v).map Prod.fst).Nodup) := by
  have h2 := chart_keys_perm (·.clientSector) (·.salePrice) v
  have h3 := chart_keys_perm (·.clientSector) (·.petBottles) v
  have h5 := chart_keys_perm (·.leadSource) (·.salePrice) v
  simp only [chart2_data, chart3_data, chart5_data]
  refine ⟨⟨?_, ?_⟩, ⟨?_, ?_⟩, ⟨?_, ?_⟩⟩
  · rw [h2.mem_iff]; exact mem_uniqueList _
  · exact h2.nodup_iff.mpr (nodup_uniqueList _)
  · rw [h3.mem_iff]; exact mem_uniqueList _
  · exact h3.nodup_iff.mpr (nodup_uniqueList _)
  · rw [h5.mem_iff]; exact mem_uniqueList _
  · exact h5.nodup_iff.mpr (nodup_uniqueList _)
